import Mathlib

/-!
Shallow embedding of the tool router in src/spotify_mcp/server.py.

Each tool function (SpotifyPlayback, SpotifySearch, SpotifyQueue,
SpotifyGetInfo, SpotifyPlaylist) is modelled as a pure function over an
environment `Env` that gives the result of every external call: the thirteen
adapter methods of the vendor client, the stdlib JSON parser
(json.loads on a string; `none` models a raised JSONDecodeError) and the
stdlib serializer (json.dumps with indent 2; an `Except.error` models a
raised exception such as TypeError on a non-serializable value).

A tool run records the returned value (`Except.error` would mean an
exception escaped the tool), the list of adapter calls made, in order, and
the log lines emitted.  The try/except wrapper of each tool is `runTool`,
applied to the translation of the try-block (the `...Body` function), which
propagates exceptions as `Except.error`.
-/

/-- A raised Python exception, as the two classes the handlers distinguish:
spotipy.SpotifyException and every other Exception.  The field is str(e). -/
inductive Exn where
  | spotifyException (msg : String)
  | otherException (msg : String)
deriving DecidableEq

/-- A JSON-serializable Python value (None, bool, int, str, list, dict). -/
inductive JVal where
  | null
  | bool (b : Bool)
  | num (n : Int)
  | str (s : String)
  | arr (elems : List JVal)
  | obj (fields : List (String × JVal))

/-- Python repr() of a `JVal`. -/
def pyRepr : JVal → String
  | JVal.null => "None"
  | JVal.bool true => "True"
  | JVal.bool false => "False"
  | JVal.num n => toString n
  | JVal.str s => "\x27" ++ s ++ "\x27"
  | JVal.arr xs =>
      "[" ++ String.intercalate ", " (xs.attach.map (fun x => pyRepr x.1)) ++ "]"
  | JVal.obj kvs =>
      "\x7b" ++ String.intercalate ", "
        (kvs.attach.map (fun kv => "\x27" ++ kv.1.1 ++ "\x27: " ++ pyRepr kv.1.2))
        ++ "\x7d"
decreasing_by
  · have h := List.sizeOf_lt_of_mem x.2
    simp_wf
    omega
  · obtain ⟨⟨k, v⟩, hmem⟩ := kv
    have h := List.sizeOf_lt_of_mem hmem
    simp_wf
    simp [Prod.mk.sizeOf_spec] at h
    omega

/-- Python str() of a `JVal` (as interpolated by an f-string). -/
def pyFormat : JVal → String
  | JVal.str s => s
  | v => pyRepr v

/-- Python str() of an Optional[str] inside an f-string. -/
def pyOptStr : Option String → String
  | none => "None"
  | some s => s

/-- Python str() of an Optional[int] inside an f-string. -/
def pyOptInt : Option Int → String
  | none => "None"
  | some n => toString n

/-- Python truthiness of an Optional[str]: None and "" are falsy. -/
def truthyOptStr : Option String → Bool
  | none => false
  | some s => s != ""

/-- One line emitted through the logger (logger.info / logger.error). -/
inductive LogEntry where
  | info (msg : String)
  | error (msg : String)
deriving DecidableEq

/-- Whether a log line was emitted at error level. -/
def isErrorLog : LogEntry → Bool
  | LogEntry.info _ => false
  | LogEntry.error _ => true

/-- Number of error-level lines in a log. -/
def errCount (ls : List LogEntry) : Nat :=
  ls.countP (fun l => isErrorLog l)

/-- An invocation of one adapter (spotify_client) method, with its arguments. -/
inductive AdapterCall where
  | get_current_track
  | start_playback (spotify_uri : Option String)
  | pause_playback
  | skip_track (n : Int)
  | search (query : String) (qtype : String) (limit : Int)
  | add_to_queue (track_id : String)
  | get_queue
  | get_info (item_uri : String)
  | get_current_user_playlists
  | get_playlist_tracks (playlist_id : String)
  | add_tracks_to_playlist (playlist_id : String) (track_ids : JVal)
  | remove_tracks_from_playlist (playlist_id : String) (track_ids : JVal)
  | change_playlist_details (playlist_id : String)
      (name : Option String) (description : Option String)

/-- Results of the external calls a tool may make: the adapter methods
(get_current_track returns a dict or None per the adapter contract),
json.loads on a string, and json.dumps with indent 2. -/
structure Env where
  get_current_track : Except Exn (Option (List (String × JVal)))
  start_playback : Option String → Except Exn Unit
  pause_playback : Except Exn Unit
  skip_track : Int → Except Exn Unit
  search : String → String → Int → Except Exn JVal
  add_to_queue : String → Except Exn Unit
  get_queue : Except Exn JVal
  get_info : String → Except Exn JVal
  get_current_user_playlists : Except Exn JVal
  get_playlist_tracks : String → Except Exn JVal
  add_tracks_to_playlist : String → JVal → Except Exn Unit
  remove_tracks_from_playlist : String → JVal → Except Exn Unit
  change_playlist_details : String → Option String → Option String → Except Exn Unit
  json_loads : String → Option JVal
  dumps : JVal → Except Exn String

/-- The value of the track_ids argument of SpotifyPlaylist at runtime: absent,
a list of strings, or (despite the declared type) a JSON-encoded string. -/
inductive TrackIdsArg where
  | none
  | list (xs : List String)
  | str (s : String)
deriving DecidableEq

/-- Python truthiness of the track_ids argument: None, [] and "" are falsy. -/
def truthyTids : TrackIdsArg → Bool
  | TrackIdsArg.none => false
  | TrackIdsArg.list xs => !xs.isEmpty
  | TrackIdsArg.str s => s != ""

/-- The Python object held by a track_ids argument, as a `JVal`. -/
def tidsToJVal : TrackIdsArg → JVal
  | TrackIdsArg.none => JVal.null
  | TrackIdsArg.list xs => JVal.arr (xs.map JVal.str)
  | TrackIdsArg.str s => JVal.str s

/-- The outcome of one tool invocation: the value handed back to the caller
(`Except.error` would be an exception escaping the tool), the adapter calls
made, and the log lines emitted. -/
structure Run where
  result : Except Exn String
  calls : List AdapterCall
  logs : List LogEntry

/-- Output of a try-block translation: possibly-raising result, calls, logs. -/
abbrev BodyOut := Except Exn String × List AdapterCall × List LogEntry

/-- The shared `except SpotifyException` / `except Exception` wrapper at the
end of every tool: a SpotifyException se is logged as
"Spotify Client error occurred: " ++ str(se) and turned into the return
value "An error occurred with the Spotify Client: " ++ str(se); any other
exception e is logged and returned as "Unexpected error occurred: " ++ str(e). -/
def runTool (body : BodyOut) : Run :=
  match body with
  | (Except.ok s, cs, ls) => { result := Except.ok s, calls := cs, logs := ls }
  | (Except.error (Exn.spotifyException m), cs, ls) =>
      { result := Except.ok ("An error occurred with the Spotify Client: " ++ m)
        calls := cs
        logs := ls ++ [LogEntry.error ("Spotify Client error occurred: " ++ m)] }
  | (Except.error (Exn.otherException m), cs, ls) =>
      { result := Except.ok ("Unexpected error occurred: " ++ m)
        calls := cs
        logs := ls ++ [LogEntry.error ("Unexpected error occurred: " ++ m)] }

/-- Try-block of SpotifyPlayback (server.py lines 165-201). -/
def SpotifyPlaybackBody (env : Env) (action : String) (spotify_uri : Option String)
    (num_skips : Option Int) : BodyOut :=
  let logs := [LogEntry.info ("Playback action: " ++ action ++
    " with arguments: spotify_uri=" ++ pyOptStr spotify_uri ++
    ", num_skips=" ++ pyOptInt num_skips)]
  match action with
  | "get" =>
    let logs := logs ++ [LogEntry.info "Attempting to get current track"]
    match env.get_current_track with
    | Except.error e => (Except.error e, [AdapterCall.get_current_track], logs)
    | Except.ok curr_track =>
      match curr_track with
      | some d =>
        if !d.isEmpty then
          let logs := logs ++ [LogEntry.info ("Current track retrieved: " ++
            pyFormat ((d.lookup "name").getD (JVal.str "Unknown")))]
          match env.dumps (JVal.obj d) with
          | Except.error e => (Except.error e, [AdapterCall.get_current_track], logs)
          | Except.ok s => (Except.ok s, [AdapterCall.get_current_track], logs)
        else
          (Except.ok "No track playing.", [AdapterCall.get_current_track],
            logs ++ [LogEntry.info "No track currently playing"])
      | none =>
        (Except.ok "No track playing.", [AdapterCall.get_current_track],
          logs ++ [LogEntry.info "No track currently playing"])
  | "start" =>
    let logs := logs ++
      [LogEntry.info ("Starting playback with spotify_uri: " ++ pyOptStr spotify_uri)]
    match env.start_playback spotify_uri with
    | Except.error e => (Except.error e, [AdapterCall.start_playback spotify_uri], logs)
    | Except.ok _ =>
        (Except.ok "Playback starting.", [AdapterCall.start_playback spotify_uri],
          logs ++ [LogEntry.info "Playback started successfully"])
  | "pause" =>
    let logs := logs ++ [LogEntry.info "Attempting to pause playback"]
    match env.pause_playback with
    | Except.error e => (Except.error e, [AdapterCall.pause_playback], logs)
    | Except.ok _ =>
        (Except.ok "Playback paused.", [AdapterCall.pause_playback],
          logs ++ [LogEntry.info "Playback paused successfully"])
  | "skip" =>
    let n : Int := match num_skips with
      | none => 1
      | some k => if k = 0 then 1 else k
    let logs := logs ++ [LogEntry.info ("Skipping " ++ toString n ++ " tracks.")]
    match env.skip_track n with
    | Except.error e => (Except.error e, [AdapterCall.skip_track n], logs)
    | Except.ok _ => (Except.ok "Skipped to next track.", [AdapterCall.skip_track n], logs)
  | _ =>
    (Except.ok ("Unknown action: " ++ action ++
      ". Supported actions are: get, start, pause, skip."), [], logs)

/-- SpotifyPlayback (server.py lines 151-210): try-block plus handlers. -/
def SpotifyPlayback (env : Env) (action : String) (spotify_uri : Option String)
    (num_skips : Option Int) : Run :=
  runTool (SpotifyPlaybackBody env action spotify_uri num_skips)

/-- Try-block of SpotifySearch (server.py lines 223-232). -/
def SpotifySearchBody (env : Env) (query : String) (qtype : Option String)
    (limit : Option Int) : BodyOut :=
  let logs := [LogEntry.info ("Performing search with query: " ++ query ++
    ", type: " ++ pyOptStr qtype ++ ", limit: " ++ pyOptInt limit)]
  let q : String := match qtype with
    | none => "track"
    | some s => if s = "" then "track" else s
  let l : Int := match limit with
    | none => 10
    | some k => if k = 0 then 10 else k
  match env.search query q l with
  | Except.error e => (Except.error e, [AdapterCall.search query q l], logs)
  | Except.ok v =>
    let logs := logs ++ [LogEntry.info "Search completed successfully."]
    match env.dumps v with
    | Except.error e => (Except.error e, [AdapterCall.search query q l], logs)
    | Except.ok s => (Except.ok s, [AdapterCall.search query q l], logs)

/-- SpotifySearch (server.py lines 214-241): try-block plus handlers. -/
def SpotifySearch (env : Env) (query : String) (qtype : Option String)
    (limit : Option Int) : Run :=
  runTool (SpotifySearchBody env query qtype limit)

/-- Try-block of SpotifyQueue (server.py lines 252-268). -/
def SpotifyQueueBody (env : Env) (action : String) (track_id : Option String) : BodyOut :=
  let logs := [LogEntry.info ("Queue operation with action: " ++ action ++
    ", track_id: " ++ pyOptStr track_id)]
  match action with
  | "add" =>
    if !truthyOptStr track_id then
      (Except.ok "track_id is required for add action", [],
        logs ++ [LogEntry.error "track_id is required for add to queue."])
    else
      match env.add_to_queue (track_id.getD "") with
      | Except.error e => (Except.error e, [AdapterCall.add_to_queue (track_id.getD "")], logs)
      | Except.ok _ =>
          (Except.ok "Track added to queue.", [AdapterCall.add_to_queue (track_id.getD "")], logs)
  | "get" =>
    match env.get_queue with
    | Except.error e => (Except.error e, [AdapterCall.get_queue], logs)
    | Except.ok v =>
      match env.dumps v with
      | Except.error e => (Except.error e, [AdapterCall.get_queue], logs)
      | Except.ok s => (Except.ok s, [AdapterCall.get_queue], logs)
  | _ =>
    (Except.ok ("Unknown queue action: " ++ action ++
      ". Supported actions are: add and get."), [], logs)

/-- SpotifyQueue (server.py lines 245-277): try-block plus handlers. -/
def SpotifyQueue (env : Env) (action : String) (track_id : Option String) : Run :=
  runTool (SpotifyQueueBody env action track_id)

/-- Try-block of SpotifyGetInfo (server.py lines 288-292). -/
def SpotifyGetInfoBody (env : Env) (item_uri : String) : BodyOut :=
  let logs := [LogEntry.info ("Getting item info for uri: " ++ item_uri)]
  match env.get_info item_uri with
  | Except.error e => (Except.error e, [AdapterCall.get_info item_uri], logs)
  | Except.ok v =>
    match env.dumps v with
    | Except.error e => (Except.error e, [AdapterCall.get_info item_uri], logs)
    | Except.ok s => (Except.ok s, [AdapterCall.get_info item_uri], logs)

/-- SpotifyGetInfo (server.py lines 281-301): try-block plus handlers. -/
def SpotifyGetInfo (env : Env) (item_uri : String) : Run :=
  runTool (SpotifyGetInfoBody env item_uri)

/-- Try-block of SpotifyPlaylist (server.py lines 324-390). -/
def SpotifyPlaylistBody (env : Env) (action : String) (playlist_id : Option String)
    (track_ids : TrackIdsArg) (name : Option String) (description : Option String) :
    BodyOut :=
  let logs := [LogEntry.info ("Playlist operation with action: " ++ action)]
  match action with
  | "get" =>
    let logs := logs ++ [LogEntry.info "Getting current user\x27s playlists"]
    match env.get_current_user_playlists with
    | Except.error e => (Except.error e, [AdapterCall.get_current_user_playlists], logs)
    | Except.ok v =>
      match env.dumps v with
      | Except.error e => (Except.error e, [AdapterCall.get_current_user_playlists], logs)
      | Except.ok s => (Except.ok s, [AdapterCall.get_current_user_playlists], logs)
  | "get_tracks" =>
    if !truthyOptStr playlist_id then
      (Except.ok "playlist_id is required for get_tracks action.", [],
        logs ++ [LogEntry.error "playlist_id is required for get_tracks action."])
    else
      let logs := logs ++
        [LogEntry.info ("Getting tracks in playlist: " ++ pyOptStr playlist_id)]
      match env.get_playlist_tracks (playlist_id.getD "") with
      | Except.error e =>
          (Except.error e, [AdapterCall.get_playlist_tracks (playlist_id.getD "")], logs)
      | Except.ok v =>
        match env.dumps v with
        | Except.error e =>
            (Except.error e, [AdapterCall.get_playlist_tracks (playlist_id.getD "")], logs)
        | Except.ok s =>
            (Except.ok s, [AdapterCall.get_playlist_tracks (playlist_id.getD "")], logs)
  | "add_tracks" =>
    if !(truthyOptStr playlist_id && truthyTids track_ids) then
      (Except.ok "playlist_id and track_ids are required for add_tracks action.", [], logs)
    else
      let logs := logs ++
        [LogEntry.info ("Adding tracks to playlist: " ++ pyOptStr playlist_id)]
      match track_ids with
      | TrackIdsArg.str s =>
        match env.json_loads s with
        | none => (Except.ok "Error: track_ids must be a list or a valid JSON array.", [], logs)
        | some v =>
          match env.add_tracks_to_playlist (playlist_id.getD "") v with
          | Except.error e =>
              (Except.error e,
                [AdapterCall.add_tracks_to_playlist (playlist_id.getD "") v], logs)
          | Except.ok _ =>
              (Except.ok "Tracks added to playlist.",
                [AdapterCall.add_tracks_to_playlist (playlist_id.getD "") v], logs)
      | t =>
        match env.add_tracks_to_playlist (playlist_id.getD "") (tidsToJVal t) with
        | Except.error e =>
            (Except.error e,
              [AdapterCall.add_tracks_to_playlist (playlist_id.getD "") (tidsToJVal t)], logs)
        | Except.ok _ =>
            (Except.ok "Tracks added to playlist.",
              [AdapterCall.add_tracks_to_playlist (playlist_id.getD "") (tidsToJVal t)], logs)
  | "remove_tracks" =>
    if !(truthyOptStr playlist_id && truthyTids track_ids) then
      (Except.ok "playlist_id and track_ids are required for remove_tracks action.", [], logs)
    else
      let logs := logs ++
        [LogEntry.info ("Removing tracks from playlist: " ++ pyOptStr playlist_id)]
      match track_ids with
      | TrackIdsArg.str s =>
        match env.json_loads s with
        | none => (Except.ok "Error: track_ids must be a list or a valid JSON array.", [], logs)
        | some v =>
          match env.remove_tracks_from_playlist (playlist_id.getD "") v with
          | Except.error e =>
              (Except.error e,
                [AdapterCall.remove_tracks_from_playlist (playlist_id.getD "") v], logs)
          | Except.ok _ =>
              (Except.ok "Tracks removed from playlist.",
                [AdapterCall.remove_tracks_from_playlist (playlist_id.getD "") v], logs)
      | t =>
        match env.remove_tracks_from_playlist (playlist_id.getD "") (tidsToJVal t) with
        | Except.error e =>
            (Except.error e,
              [AdapterCall.remove_tracks_from_playlist (playlist_id.getD "") (tidsToJVal t)], logs)
        | Except.ok _ =>
            (Except.ok "Tracks removed from playlist.",
              [AdapterCall.remove_tracks_from_playlist (playlist_id.getD "") (tidsToJVal t)], logs)
  | "change_details" =>
    if !truthyOptStr playlist_id then
      (Except.ok "playlist_id is required for change_details action.", [], logs)
    else if !truthyOptStr name && !truthyOptStr description then
      (Except.ok "At least one of name or description is required.", [], logs)
    else
      let logs := logs ++
        [LogEntry.info ("Changing playlist details for: " ++ pyOptStr playlist_id)]
      match env.change_playlist_details (playlist_id.getD "") name description with
      | Except.error e =>
          (Except.error e,
            [AdapterCall.change_playlist_details (playlist_id.getD "") name description], logs)
      | Except.ok _ =>
          (Except.ok "Playlist details changed.",
            [AdapterCall.change_playlist_details (playlist_id.getD "") name description], logs)
  | _ =>
    (Except.ok ("Unknown playlist action: " ++ action ++
      ". Supported actions are: get, get_tracks, add_tracks, remove_tracks, change_details."),
      [], logs)

/-- SpotifyPlaylist (server.py lines 305-399): try-block plus handlers. -/
def SpotifyPlaylist (env : Env) (action : String) (playlist_id : Option String)
    (track_ids : TrackIdsArg) (name : Option String) (description : Option String) : Run :=
  runTool (SpotifyPlaylistBody env action playlist_id track_ids name description)

/-- A concrete environment for closed-input checks: every adapter call
succeeds, the parser accepts the two JSON texts used below and rejects
everything else, and serialization returns a fixed text. -/
def okEnv : Env where
  get_current_track := Except.ok none
  start_playback := fun _ => Except.ok ()
  pause_playback := Except.ok ()
  skip_track := fun _ => Except.ok ()
  search := fun _ _ _ => Except.ok (JVal.obj [])
  add_to_queue := fun _ => Except.ok ()
  get_queue := Except.ok (JVal.obj [])
  get_info := fun _ => Except.ok (JVal.obj [])
  get_current_user_playlists := Except.ok (JVal.obj [])
  get_playlist_tracks := fun _ => Except.ok (JVal.obj [])
  add_tracks_to_playlist := fun _ _ => Except.ok ()
  remove_tracks_from_playlist := fun _ _ => Except.ok ()
  change_playlist_details := fun _ _ _ => Except.ok ()
  json_loads := fun s =>
    if s = "[]" then some (JVal.arr [])
    else if s = "[\"a\"]" then some (JVal.arr [JVal.str "a"]) else none
  dumps := fun _ => Except.ok "serialized"

/-- The exception handlers always hand back an `Except.ok`. -/
theorem runTool_result_ok (body : BodyOut) : ∃ s, (runTool body).result = Except.ok s := by
  obtain ⟨r, cs, ls⟩ := body
  cases r with
  | ok s => exact ⟨s, rfl⟩
  | error e =>
    cases e with
    | spotifyException m => exact ⟨_, rfl⟩
    | otherException m => exact ⟨_, rfl⟩

/-- C1: for every tool function (SpotifyPlayback, SpotifySearch, SpotifyQueue,
SpotifyGetInfo, SpotifyPlaylist) and every input, the call returns a string:
every exception raised by an adapter call or by result serialization is caught
inside the tool and converted to a string result, so no exception propagates
past the tool boundary. -/
theorem C1_no_exception_escapes (env : Env) :
    (∀ a u n, ∃ s, (SpotifyPlayback env a u n).result = Except.ok s)
    ∧ (∀ q t l, ∃ s, (SpotifySearch env q t l).result = Except.ok s)
    ∧ (∀ a t, ∃ s, (SpotifyQueue env a t).result = Except.ok s)
    ∧ (∀ u, ∃ s, (SpotifyGetInfo env u).result = Except.ok s)
    ∧ (∀ a p t n d, ∃ s, (SpotifyPlaylist env a p t n d).result = Except.ok s) :=
  ⟨fun _ _ _ => runTool_result_ok _,
   fun _ _ _ => runTool_result_ok _,
   fun _ _ => runTool_result_ok _,
   fun _ => runTool_result_ok _,
   fun _ _ _ _ _ => runTool_result_ok _⟩

/-- C4: SpotifyQueue with action "add" and absent track_id returns the error
string "track_id is required for add action" and invokes no adapter method. -/
theorem C4_queue_add_missing_track_id (env : Env) :
    (SpotifyQueue env "add" none).result = Except.ok "track_id is required for add action"
    ∧ (SpotifyQueue env "add" none).calls = [] :=
  ⟨rfl, rfl⟩

/-- C9: SpotifyPlaylist with action "add_tracks" or "remove_tracks" and an
empty track_ids list is treated as if track_ids were missing, for every
playlist_id: it returns the required-fields error string and calls no adapter
method, because the required-field check tests truthiness. -/
theorem C9_empty_track_ids (env : Env) (pid : Option String) (n d : Option String) :
    ((SpotifyPlaylist env "add_tracks" pid (TrackIdsArg.list []) n d).result
        = Except.ok "playlist_id and track_ids are required for add_tracks action."
      ∧ (SpotifyPlaylist env "add_tracks" pid (TrackIdsArg.list []) n d).calls = [])
    ∧ ((SpotifyPlaylist env "remove_tracks" pid (TrackIdsArg.list []) n d).result
        = Except.ok "playlist_id and track_ids are required for remove_tracks action."
      ∧ (SpotifyPlaylist env "remove_tracks" pid (TrackIdsArg.list []) n d).calls = []) := by
  unfold SpotifyPlaylist SpotifyPlaylistBody
  simp [truthyTids, runTool]

/-- String append is associative. -/
theorem strAppendAssoc (a b c : String) : a ++ b ++ c = a ++ (b ++ c) := by
  obtain ⟨la⟩ := a
  obtain ⟨lb⟩ := b
  obtain ⟨lc⟩ := c
  show String.mk (la ++ lb ++ lc) = String.mk (la ++ (lb ++ lc))
  rw [List.append_assoc]

/-- Appending one error line increments the error count by one. -/
theorem errCount_append_error (ls : List LogEntry) (m : String) :
    errCount (ls ++ [LogEntry.error m]) = errCount ls + 1 := by
  simp [errCount, isErrorLog, List.countP_append, List.countP_cons]

/-- No branch of the SpotifyPlayback try-block logs at error level. -/
theorem playback_body_info_only (env : Env) (a : String) (u : Option String)
    (n : Option Int) (r : Except Exn String) (cs : List AdapterCall) (ls : List LogEntry)
    (hB : SpotifyPlaybackBody env a u n = (r, cs, ls)) : errCount ls = 0 := by
  revert hB
  unfold SpotifyPlaybackBody
  dsimp only
  repeat' split
  all_goals intro hB
  all_goals simp only [Prod.mk.injEq] at hB
  all_goals obtain ⟨h1, h2, h3⟩ := hB
  all_goals subst h3
  all_goals simp [errCount, isErrorLog]

/-- Projection form of `playback_body_info_only`. -/
theorem playback_no_errlog (env : Env) (a : String) (u : Option String) (n : Option Int) :
    errCount (SpotifyPlaybackBody env a u n).2.2 = 0 :=
  playback_body_info_only env a u n _ _ _ rfl

/-- No branch of the SpotifySearch try-block logs at error level. -/
theorem search_body_info_only (env : Env) (q : String) (t : Option String)
    (l : Option Int) (r : Except Exn String) (cs : List AdapterCall) (ls : List LogEntry)
    (hB : SpotifySearchBody env q t l = (r, cs, ls)) : errCount ls = 0 := by
  revert hB
  unfold SpotifySearchBody
  dsimp only
  repeat' split
  all_goals intro hB
  all_goals simp only [Prod.mk.injEq] at hB
  all_goals obtain ⟨h1, h2, h3⟩ := hB
  all_goals subst h3
  all_goals simp [errCount, isErrorLog]

/-- Projection form of `search_body_info_only`. -/
theorem search_no_errlog (env : Env) (q : String) (t : Option String) (l : Option Int) :
    errCount (SpotifySearchBody env q t l).2.2 = 0 :=
  search_body_info_only env q t l _ _ _ rfl

/-- No branch of the SpotifyGetInfo try-block logs at error level. -/
theorem getinfo_body_info_only (env : Env) (u : String)
    (r : Except Exn String) (cs : List AdapterCall) (ls : List LogEntry)
    (hB : SpotifyGetInfoBody env u = (r, cs, ls)) : errCount ls = 0 := by
  revert hB
  unfold SpotifyGetInfoBody
  dsimp only
  repeat' split
  all_goals intro hB
  all_goals simp only [Prod.mk.injEq] at hB
  all_goals obtain ⟨h1, h2, h3⟩ := hB
  all_goals subst h3
  all_goals simp [errCount, isErrorLog]

/-- Projection form of `getinfo_body_info_only`. -/
theorem getinfo_no_errlog (env : Env) (u : String) :
    errCount (SpotifyGetInfoBody env u).2.2 = 0 :=
  getinfo_body_info_only env u _ _ _ rfl

/-- A raising branch of the SpotifyQueue try-block has no error-level log. -/
theorem queue_body_err_info_only (env : Env) (a : String) (t : Option String)
    (e : Exn) (r : Except Exn String) (cs : List AdapterCall) (ls : List LogEntry)
    (hB : SpotifyQueueBody env a t = (r, cs, ls)) (hr : r = Except.error e) :
    errCount ls = 0 := by
  subst hr
  revert hB
  unfold SpotifyQueueBody
  dsimp only
  repeat' split
  all_goals intro hB
  all_goals simp only [Prod.mk.injEq] at hB
  all_goals obtain ⟨h1, h2, h3⟩ := hB
  all_goals first
    | exact Except.noConfusion h1
    | (subst h3; simp [errCount, isErrorLog])

/-- Projection form of `queue_body_err_info_only`. -/
theorem queue_no_errlog (env : Env) (a : String) (t : Option String) (e : Exn)
    (h : (SpotifyQueueBody env a t).1 = Except.error e) :
    errCount (SpotifyQueueBody env a t).2.2 = 0 :=
  queue_body_err_info_only env a t e _ _ _ rfl h

/-- A raising branch of the SpotifyPlaylist try-block has no error-level log. -/
theorem playlist_body_err_info_only (env : Env) (a : String) (pid : Option String)
    (tids : TrackIdsArg) (nm : Option String) (d : Option String)
    (e : Exn) (r : Except Exn String) (cs : List AdapterCall) (ls : List LogEntry)
    (hB : SpotifyPlaylistBody env a pid tids nm d = (r, cs, ls)) (hr : r = Except.error e) :
    errCount ls = 0 := by
  subst hr
  revert hB
  unfold SpotifyPlaylistBody
  dsimp only
  repeat' split
  all_goals intro hB
  all_goals simp only [Prod.mk.injEq] at hB
  all_goals obtain ⟨h1, h2, h3⟩ := hB
  all_goals first
    | exact Except.noConfusion h1
    | (subst h3; simp [errCount, isErrorLog])

/-- Projection form of `playlist_body_err_info_only`. -/
theorem playlist_no_errlog (env : Env) (a : String) (pid : Option String)
    (tids : TrackIdsArg) (nm : Option String) (d : Option String) (e : Exn)
    (h : (SpotifyPlaylistBody env a pid tids nm d).1 = Except.error e) :
    errCount (SpotifyPlaylistBody env a pid tids nm d).2.2 = 0 :=
  playlist_body_err_info_only env a pid tids nm d e _ _ _ rfl h

/-- Exception mapping of the shared handlers: if the try-block raised a
SpotifyException the tool returns the vendor format (which contains
"error occurred with the Spotify Client: " followed by the message) and the
error is logged exactly once; if it raised any other exception the tool
returns the "Unexpected error occurred: " format. -/
theorem tool_exn_mapping (b : BodyOut) (msg : String)
    (hlog : ∀ e, b.1 = Except.error e → errCount b.2.2 = 0) :
    (b.1 = Except.error (Exn.spotifyException msg) →
        (runTool b).result
          = Except.ok ("An " ++ ("error occurred with the Spotify Client: " ++ msg))
        ∧ errCount (runTool b).logs = 1)
    ∧ (b.1 = Except.error (Exn.otherException msg) →
        (runTool b).result = Except.ok ("Unexpected error occurred: " ++ msg)
        ∧ errCount (runTool b).logs = 1) := by
  obtain ⟨r, cs, ls⟩ := b
  have h0 : ∀ e, r = Except.error e → errCount ls = 0 := hlog
  constructor
  · intro h
    have h2 : r = Except.error (Exn.spotifyException msg) := h
    subst h2
    refine ⟨?_, ?_⟩
    · show Except.ok ("An error occurred with the Spotify Client: " ++ msg) = _
      rw [← strAppendAssoc]
      rfl
    · show errCount (ls ++ [LogEntry.error ("Spotify Client error occurred: " ++ msg)]) = 1
      rw [errCount_append_error, h0 _ rfl]
  · intro h
    have h2 : r = Except.error (Exn.otherException msg) := h
    subst h2
    refine ⟨rfl, ?_⟩
    show errCount (ls ++ [LogEntry.error ("Unexpected error occurred: " ++ msg)]) = 1
    rw [errCount_append_error, h0 _ rfl]

/-- C2: for every tool and every input on which the try-block raises: a vendor
(SpotifyException) exception with message msg makes the tool return the string
"An " followed by "error occurred with the Spotify Client: " followed by msg —
a string of the form "error occurred with the Spotify Client: <message>"
containing the exception message — and log the error exactly once; any other
exception makes it return "Unexpected error occurred: " followed by msg. -/
theorem C2_exception_mapping (env : Env) (msg : String) :
    (∀ a u n, (SpotifyPlaybackBody env a u n).1 = Except.error (Exn.spotifyException msg) →
        (SpotifyPlayback env a u n).result
          = Except.ok ("An " ++ ("error occurred with the Spotify Client: " ++ msg))
        ∧ errCount (SpotifyPlayback env a u n).logs = 1)
    ∧ (∀ a u n, (SpotifyPlaybackBody env a u n).1 = Except.error (Exn.otherException msg) →
        (SpotifyPlayback env a u n).result = Except.ok ("Unexpected error occurred: " ++ msg)
        ∧ errCount (SpotifyPlayback env a u n).logs = 1)
    ∧ (∀ q t l, (SpotifySearchBody env q t l).1 = Except.error (Exn.spotifyException msg) →
        (SpotifySearch env q t l).result
          = Except.ok ("An " ++ ("error occurred with the Spotify Client: " ++ msg))
        ∧ errCount (SpotifySearch env q t l).logs = 1)
    ∧ (∀ q t l, (SpotifySearchBody env q t l).1 = Except.error (Exn.otherException msg) →
        (SpotifySearch env q t l).result = Except.ok ("Unexpected error occurred: " ++ msg)
        ∧ errCount (SpotifySearch env q t l).logs = 1)
    ∧ (∀ a t, (SpotifyQueueBody env a t).1 = Except.error (Exn.spotifyException msg) →
        (SpotifyQueue env a t).result
          = Except.ok ("An " ++ ("error occurred with the Spotify Client: " ++ msg))
        ∧ errCount (SpotifyQueue env a t).logs = 1)
    ∧ (∀ a t, (SpotifyQueueBody env a t).1 = Except.error (Exn.otherException msg) →
        (SpotifyQueue env a t).result = Except.ok ("Unexpected error occurred: " ++ msg)
        ∧ errCount (SpotifyQueue env a t).logs = 1)
    ∧ (∀ u, (SpotifyGetInfoBody env u).1 = Except.error (Exn.spotifyException msg) →
        (SpotifyGetInfo env u).result
          = Except.ok ("An " ++ ("error occurred with the Spotify Client: " ++ msg))
        ∧ errCount (SpotifyGetInfo env u).logs = 1)
    ∧ (∀ u, (SpotifyGetInfoBody env u).1 = Except.error (Exn.otherException msg) →
        (SpotifyGetInfo env u).result = Except.ok ("Unexpected error occurred: " ++ msg)
        ∧ errCount (SpotifyGetInfo env u).logs = 1)
    ∧ (∀ a p t nm d,
        (SpotifyPlaylistBody env a p t nm d).1 = Except.error (Exn.spotifyException msg) →
        (SpotifyPlaylist env a p t nm d).result
          = Except.ok ("An " ++ ("error occurred with the Spotify Client: " ++ msg))
        ∧ errCount (SpotifyPlaylist env a p t nm d).logs = 1)
    ∧ (∀ a p t nm d,
        (SpotifyPlaylistBody env a p t nm d).1 = Except.error (Exn.otherException msg) →
        (SpotifyPlaylist env a p t nm d).result = Except.ok ("Unexpected error occurred: " ++ msg)
        ∧ errCount (SpotifyPlaylist env a p t nm d).logs = 1) :=
  ⟨fun a u n h => (tool_exn_mapping _ msg (fun _ _ => playback_no_errlog env a u n)).1 h,
   fun a u n h => (tool_exn_mapping _ msg (fun _ _ => playback_no_errlog env a u n)).2 h,
   fun q t l h => (tool_exn_mapping _ msg (fun _ _ => search_no_errlog env q t l)).1 h,
   fun q t l h => (tool_exn_mapping _ msg (fun _ _ => search_no_errlog env q t l)).2 h,
   fun a t h => (tool_exn_mapping _ msg (fun e he => queue_no_errlog env a t e he)).1 h,
   fun a t h => (tool_exn_mapping _ msg (fun e he => queue_no_errlog env a t e he)).2 h,
   fun u h => (tool_exn_mapping _ msg (fun _ _ => getinfo_no_errlog env u)).1 h,
   fun u h => (tool_exn_mapping _ msg (fun _ _ => getinfo_no_errlog env u)).2 h,
   fun a p t nm d h =>
     (tool_exn_mapping _ msg (fun e he => playlist_no_errlog env a p t nm d e he)).1 h,
   fun a p t nm d h =>
     (tool_exn_mapping _ msg (fun e he => playlist_no_errlog env a p t nm d e he)).2 h⟩

/-- okEnv whose pause_playback raises a vendor exception. -/
def vendorFailEnv : Env :=
  { okEnv with pause_playback := Except.error (Exn.spotifyException "boom") }

/-- okEnv whose pause_playback raises a generic exception. -/
def otherFailEnv : Env :=
  { okEnv with pause_playback := Except.error (Exn.otherException "oops") }

theorem C2_exception_mapping_witness :
    ((SpotifyPlayback vendorFailEnv "pause" none (some 1)).result
        = Except.ok ("An " ++ ("error occurred with the Spotify Client: " ++ "boom"))
      ∧ errCount (SpotifyPlayback vendorFailEnv "pause" none (some 1)).logs = 1)
    ∧ ((SpotifyPlayback otherFailEnv "pause" none (some 1)).result
        = Except.ok ("Unexpected error occurred: " ++ "oops")
      ∧ errCount (SpotifyPlayback otherFailEnv "pause" none (some 1)).logs = 1) :=
  ⟨(C2_exception_mapping vendorFailEnv "boom").1 "pause" none (some 1) rfl,
   (C2_exception_mapping otherFailEnv "oops").2.1 "pause" none (some 1) rfl⟩

/-- C3: for every action-dispatching tool (SpotifyPlayback, SpotifyQueue,
SpotifyPlaylist) and every action outside its recognized set, the tool returns
the error string that enumerates its valid actions, makes no adapter call, and
raises no exception (the result is an Except.ok). -/
theorem C3_unknown_action (env : Env) (a : String) :
    (∀ u n, a ∉ (["get", "start", "pause", "skip"] : List String) →
      (SpotifyPlayback env a u n).result
        = Except.ok ("Unknown action: " ++ a ++ ". Supported actions are: get, start, pause, skip.")
      ∧ (SpotifyPlayback env a u n).calls = [])
    ∧ (∀ t, a ∉ (["add", "get"] : List String) →
      (SpotifyQueue env a t).result
        = Except.ok ("Unknown queue action: " ++ a ++ ". Supported actions are: add and get.")
      ∧ (SpotifyQueue env a t).calls = [])
    ∧ (∀ p t nm d,
      a ∉ (["get", "get_tracks", "add_tracks", "remove_tracks", "change_details"] : List String) →
      (SpotifyPlaylist env a p t nm d).result
        = Except.ok ("Unknown playlist action: " ++ a ++
            ". Supported actions are: get, get_tracks, add_tracks, remove_tracks, change_details.")
      ∧ (SpotifyPlaylist env a p t nm d).calls = []) := by
  refine ⟨fun u n h => ?_, fun t h => ?_, fun p t nm d h => ?_⟩
  · unfold SpotifyPlayback SpotifyPlaybackBody
    dsimp only
    repeat' split
    all_goals first
      | exact ⟨rfl, rfl⟩
      | exact absurd h (by decide)
  · unfold SpotifyQueue SpotifyQueueBody
    dsimp only
    repeat' split
    all_goals first
      | exact ⟨rfl, rfl⟩
      | exact absurd h (by decide)
  · unfold SpotifyPlaylist SpotifyPlaylistBody
    dsimp only
    repeat' split
    all_goals first
      | exact ⟨rfl, rfl⟩
      | exact absurd h (by decide)

theorem C3_unknown_action_witness :
    ((SpotifyPlayback okEnv "zap" none (some 1)).result
        = Except.ok ("Unknown action: " ++ "zap" ++ ". Supported actions are: get, start, pause, skip.")
      ∧ (SpotifyPlayback okEnv "zap" none (some 1)).calls = [])
    ∧ ((SpotifyQueue okEnv "zap" none).result
        = Except.ok ("Unknown queue action: " ++ "zap" ++ ". Supported actions are: add and get.")
      ∧ (SpotifyQueue okEnv "zap" none).calls = [])
    ∧ ((SpotifyPlaylist okEnv "zap" none TrackIdsArg.none none none).result
        = Except.ok ("Unknown playlist action: " ++ "zap" ++
            ". Supported actions are: get, get_tracks, add_tracks, remove_tracks, change_details.")
      ∧ (SpotifyPlaylist okEnv "zap" none TrackIdsArg.none none none).calls = []) :=
  ⟨(C3_unknown_action okEnv "zap").1 none (some 1) (by decide),
   (C3_unknown_action okEnv "zap").2.1 none (by decide),
   (C3_unknown_action okEnv "zap").2.2 none TrackIdsArg.none none none (by decide)⟩

/-- The handlers never change the list of adapter calls. -/
theorem runTool_calls (b : BodyOut) : (runTool b).calls = b.2.1 := by
  obtain ⟨r, cs, ls⟩ := b
  cases r with
  | ok s => rfl
  | error e => cases e <;> rfl

/-- C5 counterexample: for the empty list L = [] and playlist_id "p", passing
track_ids as the JSON encoding "[]" of L (a truthy string, parsed to the empty
array, adapter called) does not produce the same result as passing the empty
list itself (falsy, rejected by the required-fields truthiness check). -/
theorem C5_counterexample :
    okEnv.json_loads "[]" = some (JVal.arr (List.map JVal.str []))
    ∧ (SpotifyPlaylist okEnv "add_tracks" (some "p") (TrackIdsArg.str "[]") none none).result
      = Except.ok "Tracks added to playlist."
    ∧ (SpotifyPlaylist okEnv "add_tracks" (some "p") (TrackIdsArg.list []) none none).result
      = Except.ok "playlist_id and track_ids are required for add_tracks action."
    ∧ (SpotifyPlaylist okEnv "add_tracks" (some "p") (TrackIdsArg.str "[]") none none).calls
      = [AdapterCall.add_tracks_to_playlist "p" (JVal.arr [])]
    ∧ (SpotifyPlaylist okEnv "add_tracks" (some "p") (TrackIdsArg.list []) none none).calls = []
    ∧ (SpotifyPlaylist okEnv "add_tracks" (some "p") (TrackIdsArg.str "[]") none none).result
      ≠ (SpotifyPlaylist okEnv "add_tracks" (some "p") (TrackIdsArg.list []) none none).result := by
  refine ⟨rfl, rfl, rfl, rfl, rfl, ?_⟩
  intro hx
  have h1 : (SpotifyPlaylist okEnv "add_tracks" (some "p") (TrackIdsArg.str "[]") none none).result
      = Except.ok "Tracks added to playlist." := rfl
  have h2 : (SpotifyPlaylist okEnv "add_tracks" (some "p") (TrackIdsArg.list []) none none).result
      = Except.ok "playlist_id and track_ids are required for add_tracks action." := rfl
  rw [h1, h2] at hx
  injection hx with hs
  exact absurd hs (by decide)

/-- C5 (amended): for every playlist_id and every NON-EMPTY list L of track
ids, calling SpotifyPlaylist add_tracks with track_ids given as a non-empty
string that json.loads parses to the JSON array of the elements of L (as the
JSON-array encoding of L is) produces the same run - result, adapter calls and
logs - as the call with track_ids given directly as the list L. -/
theorem C5_amended_nonempty (env : Env) (pid : Option String) (L : List String)
    (s : String) (nm d : Option String) (hL : L ≠ []) (hs : s ≠ "")
    (hparse : env.json_loads s = some (JVal.arr (L.map JVal.str))) :
    SpotifyPlaylist env "add_tracks" pid (TrackIdsArg.str s) nm d
      = SpotifyPlaylist env "add_tracks" pid (TrackIdsArg.list L) nm d := by
  unfold SpotifyPlaylist SpotifyPlaylistBody
  simp [truthyTids, tidsToJVal, hL, hs, hparse]

theorem C5_amended_nonempty_witness :
    SpotifyPlaylist okEnv "add_tracks" (some "p") (TrackIdsArg.str "[\"a\"]") none none
      = SpotifyPlaylist okEnv "add_tracks" (some "p") (TrackIdsArg.list ["a"]) none none :=
  C5_amended_nonempty okEnv (some "p") ["a"] "[\"a\"]" none none
    (by decide) (by decide) rfl

/-- C6 counterexample: the empty string is a string that is not valid JSON
(okEnv.json_loads rejects it), yet with a non-empty playlist_id the tool
returns the required-fields error string, not "Error: track_ids must be a
list or a valid JSON array.", because the empty string is falsy and fails the
required-fields truthiness check first. -/
theorem C6_counterexample :
    okEnv.json_loads "" = none
    ∧ (SpotifyPlaylist okEnv "add_tracks" (some "p") (TrackIdsArg.str "") none none).result
      = Except.ok "playlist_id and track_ids are required for add_tracks action."
    ∧ "playlist_id and track_ids are required for add_tracks action."
      ≠ "Error: track_ids must be a list or a valid JSON array." := by
  refine ⟨rfl, rfl, ?_⟩
  decide

/-- C6 (amended): for action add_tracks or remove_tracks, a non-empty
playlist_id, and track_ids given as a NON-EMPTY string on which json.loads
fails, the tool returns "Error: track_ids must be a list or a valid JSON
array." without raising an exception and without calling the adapter. -/
theorem C6_amended_invalid_json (env : Env) (p s : String) (nm d : Option String)
    (hp : p ≠ "") (hs : s ≠ "") (hparse : env.json_loads s = none) :
    ((SpotifyPlaylist env "add_tracks" (some p) (TrackIdsArg.str s) nm d).result
        = Except.ok "Error: track_ids must be a list or a valid JSON array."
      ∧ (SpotifyPlaylist env "add_tracks" (some p) (TrackIdsArg.str s) nm d).calls = [])
    ∧ ((SpotifyPlaylist env "remove_tracks" (some p) (TrackIdsArg.str s) nm d).result
        = Except.ok "Error: track_ids must be a list or a valid JSON array."
      ∧ (SpotifyPlaylist env "remove_tracks" (some p) (TrackIdsArg.str s) nm d).calls = []) := by
  unfold SpotifyPlaylist SpotifyPlaylistBody
  simp [truthyOptStr, truthyTids, hp, hs, hparse, runTool]

theorem C6_amended_invalid_json_witness :
    ((SpotifyPlaylist okEnv "add_tracks" (some "p") (TrackIdsArg.str "oops") none none).result
        = Except.ok "Error: track_ids must be a list or a valid JSON array."
      ∧ (SpotifyPlaylist okEnv "add_tracks" (some "p") (TrackIdsArg.str "oops") none none).calls = [])
    ∧ ((SpotifyPlaylist okEnv "remove_tracks" (some "p") (TrackIdsArg.str "oops") none none).result
        = Except.ok "Error: track_ids must be a list or a valid JSON array."
      ∧ (SpotifyPlaylist okEnv "remove_tracks" (some "p") (TrackIdsArg.str "oops") none none).calls = []) :=
  C6_amended_invalid_json okEnv "p" "oops" none none (by decide) (by decide) rfl

/-- C7: change_details with a non-empty playlist_id and neither name nor
description returns the required-field error string and does not call the
change-playlist-details adapter method (no adapter call at all). -/
theorem C7_change_details_requires (env : Env) (p : String) (t : TrackIdsArg) (hp : p ≠ "") :
    (SpotifyPlaylist env "change_details" (some p) t none none).result
      = Except.ok "At least one of name or description is required."
    ∧ (SpotifyPlaylist env "change_details" (some p) t none none).calls = [] := by
  unfold SpotifyPlaylist SpotifyPlaylistBody
  simp [truthyOptStr, hp, runTool]

theorem C7_change_details_requires_witness :
    (SpotifyPlaylist okEnv "change_details" (some "p") TrackIdsArg.none none none).result
      = Except.ok "At least one of name or description is required."
    ∧ (SpotifyPlaylist okEnv "change_details" (some "p") TrackIdsArg.none none none).calls = [] :=
  C7_change_details_requires okEnv "p" TrackIdsArg.none (by decide)

/-- With absent qtype and limit, the SpotifySearch try-block calls search with
the defaults "track" and 10, once, on every path. -/
theorem search_body_calls (env : Env) (q : String) :
    (SpotifySearchBody env q none none).2.1 = [AdapterCall.search q "track" 10] := by
  unfold SpotifySearchBody
  dsimp only
  repeat' split
  all_goals rfl

/-- C8: SpotifySearch with absent qtype and absent limit invokes the adapter
search method exactly once, with qtype "track" and limit 10; when that search
and the serialization succeed, the serialized (indented-JSON) text is the
returned result. -/
theorem C8_search_defaults (env : Env) (q : String) :
    (SpotifySearch env q none none).calls = [AdapterCall.search q "track" 10]
    ∧ (∀ v s, env.search q "track" 10 = Except.ok v → env.dumps v = Except.ok s →
        (SpotifySearch env q none none).result = Except.ok s) := by
  constructor
  · exact (runTool_calls _).trans (search_body_calls env q)
  · intro v s hv hs
    unfold SpotifySearch SpotifySearchBody
    simp [hv, hs, runTool]

theorem C8_search_defaults_witness :
    okEnv.search "hello" "track" 10 = Except.ok (JVal.obj [])
    ∧ okEnv.dumps (JVal.obj []) = Except.ok "serialized"
    ∧ (SpotifySearch okEnv "hello" none none).result = Except.ok "serialized" :=
  ⟨rfl, rfl, (C8_search_defaults okEnv "hello").2 (JVal.obj []) "serialized" rfl rfl⟩

/-- The SpotifyPlayback skip branch calls skip_track with 1 when num_skips is
absent. -/
theorem playback_skip_body_calls_none (env : Env) (u : Option String) :
    (SpotifyPlaybackBody env "skip" u none).2.1 = [AdapterCall.skip_track 1] := by
  unfold SpotifyPlaybackBody
  dsimp only
  repeat' split
  all_goals simp_all

/-- The SpotifyPlayback skip branch calls skip_track with 1 when num_skips is
0, because `num_skips or 1` treats 0 as falsy. -/
theorem playback_skip_body_calls_zero (env : Env) (u : Option String) :
    (SpotifyPlaybackBody env "skip" u (some 0)).2.1 = [AdapterCall.skip_track 1] := by
  unfold SpotifyPlaybackBody
  dsimp only
  repeat' split
  all_goals simp_all

/-- The SpotifyPlayback skip branch passes a non-zero num_skips through. -/
theorem playback_skip_body_calls_nonzero (env : Env) (u : Option String) (k : Int)
    (hk : ¬k = 0) :
    (SpotifyPlaybackBody env "skip" u (some k)).2.1 = [AdapterCall.skip_track k] := by
  unfold SpotifyPlaybackBody
  dsimp only
  rw [if_neg hk]
  repeat' split
  all_goals simp_all

/-- C10: SpotifyPlayback with action "skip" coerces a falsy num_skips (absent
or 0) to the default 1 before calling the adapter skip method, passes every
positive k through as n = k, and on adapter success returns
"Skipped to next track.". -/
theorem C10_skip_defaults (env : Env) (u : Option String) :
    (SpotifyPlayback env "skip" u none).calls = [AdapterCall.skip_track 1]
    ∧ (SpotifyPlayback env "skip" u (some 0)).calls = [AdapterCall.skip_track 1]
    ∧ (∀ k : Int, 0 < k →
        (SpotifyPlayback env "skip" u (some k)).calls = [AdapterCall.skip_track k])
    ∧ (env.skip_track 1 = Except.ok () →
        (SpotifyPlayback env "skip" u none).result = Except.ok "Skipped to next track."
        ∧ (SpotifyPlayback env "skip" u (some 0)).result = Except.ok "Skipped to next track.")
    ∧ (∀ k : Int, 0 < k → env.skip_track k = Except.ok () →
        (SpotifyPlayback env "skip" u (some k)).result = Except.ok "Skipped to next track.") := by
  refine ⟨?_, ?_, fun k hk => ?_, fun h => ⟨?_, ?_⟩, fun k hk h => ?_⟩
  · exact (runTool_calls _).trans (playback_skip_body_calls_none env u)
  · exact (runTool_calls _).trans (playback_skip_body_calls_zero env u)
  · exact (runTool_calls _).trans
      (playback_skip_body_calls_nonzero env u k (by omega))
  · unfold SpotifyPlayback SpotifyPlaybackBody
    simp [h, runTool]
  · unfold SpotifyPlayback SpotifyPlaybackBody
    simp [h, runTool]
  · have hk0 : ¬k = 0 := by omega
    unfold SpotifyPlayback SpotifyPlaybackBody
    simp [hk0, h, runTool]

theorem C10_skip_defaults_witness :
    (SpotifyPlayback okEnv "skip" none (some 3)).calls = [AdapterCall.skip_track 3]
    ∧ okEnv.skip_track 1 = Except.ok ()
    ∧ (SpotifyPlayback okEnv "skip" none none).result = Except.ok "Skipped to next track."
    ∧ (SpotifyPlayback okEnv "skip" none (some 3)).result = Except.ok "Skipped to next track." :=
  ⟨(C10_skip_defaults okEnv none).2.2.1 3 (by decide),
   rfl,
   ((C10_skip_defaults okEnv none).2.2.2.1 rfl).1,
   (C10_skip_defaults okEnv none).2.2.2.2 3 (by decide) rfl⟩
